import Mathlib

/-!
Shallow embedding of `src/water-quality-auditor-bot.py` (Water-Quality-Auditor-Bot).

The program is a four-stage prompt-chaining pipeline driven from a Streamlit UI.
External effects (model calls, web-search tool calls) are embedded as oracles:
a `StageOracles` record supplies, for each stage, the structured result the
external model returns for a given prompt (or a failure).  The pipeline and the
button-click handler are translated from the source; prompts are built by the
same string concatenations as the Python f-strings, and every external call is
recorded in an explicit trace so that sequencing, gating and call-cap
properties can be stated.
-/

/-- Embeds the pydantic `Literal["Low", "Moderate", "High"]` type of the
`contamination_level` field of `WaterVisualAnalysisOutput` (src line 15). -/
inductive ContaminationLevel where
  | Low
  | Moderate
  | High
deriving DecidableEq

/-- The string a `ContaminationLevel` renders as in a Python f-string. -/
def ContaminationLevel.render : ContaminationLevel → String
  | .Low => "Low"
  | .Moderate => "Moderate"
  | .High => "High"

/-- Embeds the pydantic model `WaterVisualAnalysisOutput` (src lines 13-16). -/
structure WaterVisualAnalysisOutput where
  detected_features : List String
  contamination_level : ContaminationLevel
  likely_risks : List String

/-- Embeds the pydantic model `ContaminationCause` (src lines 18-21). -/
structure ContaminationCause where
  type : String
  source : String
  risk_level : String

/-- Embeds the pydantic model `WaterContaminationDiagnosis` (src lines 23-27). -/
structure WaterContaminationDiagnosis where
  summary : String
  severity : String
  contamination_causes : List ContaminationCause
  action_note : String

/-- Embeds `water_visual_output_to_string` (src lines 29-38).  The Python
f-string keeps two trailing spaces after the features and level lines. -/
def water_visual_output_to_string (output : WaterVisualAnalysisOutput) : String :=
  let features := String.intercalate ", " output.detected_features
  let risks := String.intercalate ", " output.likely_risks
  "🔍 **Visual Water Inspection Summary**\n\n**Detected Contaminants**: " ++ features
    ++ "  \n**Contamination Level**: `" ++ output.contamination_level.render
    ++ "`  \n**Likely Risks**: " ++ risks ++ "\n"

/-- The four lines the loop body of `water_diagnosis_to_string` appends for one
cause (src lines 50-54). -/
def causeLines (cause : ContaminationCause) : List String :=
  ["- **Type**: " ++ cause.type,
   "  • Source: " ++ cause.source,
   "  • Risk Level: `" ++ cause.risk_level ++ "`",
   ""]

/-- Embeds `water_diagnosis_to_string` (src lines 40-57). -/
def water_diagnosis_to_string (diagnosis : WaterContaminationDiagnosis) : String :=
  String.intercalate "\n"
    (["🧪 **Water Contamination Diagnosis**",
      "",
      "**Summary**: " ++ diagnosis.summary,
      "**Severity**: `" ++ diagnosis.severity ++ "`",
      "",
      "🔬 **Identified Contamination Causes:**"]
      ++ (diagnosis.contamination_causes.map causeLines).flatten
      ++ ["⚠️ **Note**: " ++ diagnosis.action_note])

/-- Embeds the dict returned by `render_water_quality_inputs` (src lines
138-146).  The three selectboxes created with `index=None` can be `None`, so
those fields are `Option String`; the last two selectboxes always hold a value.
The uploaded image is its byte content, `none` when nothing was uploaded. -/
structure UserWaterInputs where
  uploaded_image : Option String
  water_source_type : Option String
  water_usage : Option String
  surrounding_area : Option String
  noticed_issues : List String
  purification_possible : String
  urgency_level : String

/-- How a Python f-string renders an optional value: `None` prints as "None". -/
def optStr : Option String → String
  | none => "None"
  | some s => s

/-- Embeds Python `x or d` for an optional string `x`: both `None` and the
empty string are falsy. -/
def pyOrStr (x : Option String) (d : String) : String :=
  match x with
  | none => d
  | some s => if s.isEmpty then d else s

/-- Embeds `', '.join(noticed_issues) or 'None'` (src line 219). -/
def joinedIssues (issues : List String) : String :=
  let j := String.intercalate ", " issues
  if j.isEmpty then "None" else j

/-- The configuration facts of one `Agent(...)` construction that the claims
depend on: its name, the model id it is built with, whether it is given the
SerpAPI tool set, and its `tool_call_limit` keyword (absent for agents that do
not set one). -/
structure AgentConfig where
  name : String
  modelId : String
  hasSearchTools : Bool
  tool_call_limit : Option Nat

/-- Configuration of the stage-1 agent (src lines 162-184). -/
def visual_analyzer_agent : AgentConfig :=
  { name := "Water Visual Analyzer", modelId := "gpt-4o",
    hasSearchTools := false, tool_call_limit := none }

/-- Configuration of the stage-2 agent (src lines 194-210). -/
def water_risk_mapper_agent : AgentConfig :=
  { name := "Water Risk Mapper", modelId := "gpt-4o",
    hasSearchTools := false, tool_call_limit := none }

/-- Configuration of the stage-3 agent (src lines 229-249): it carries
`SerpApiTools` and `tool_call_limit=4`. -/
def web_researcher_agent : AgentConfig :=
  { name := "Water Safety Research Assistant", modelId := "gpt-4o",
    hasSearchTools := true, tool_call_limit := some 4 }

/-- Configuration of the stage-4 agent (src lines 269-319). -/
def water_report_generator_agent : AgentConfig :=
  { name := "Water Quality Report Generator", modelId := "o3-mini",
    hasSearchTools := false, tool_call_limit := none }

/-- One external call made during a run: a generative-model call by a named
agent, or a web-search tool invocation. -/
inductive ExternalCall where
  | modelCall (agentName : String) (modelId : String) (prompt : String)
  | searchCall (query : String)
deriving DecidableEq

/-- Whether a trace entry is a web-search tool invocation. -/
def ExternalCall.isSearchCall : ExternalCall → Bool
  | .searchCall _ => true
  | .modelCall _ _ _ => false

/-- Whether a trace entry is a generative-model call. -/
def ExternalCall.isModelCall : ExternalCall → Bool
  | .searchCall _ => false
  | .modelCall _ _ _ => true

/-- The agent name of a trace entry (empty for a search call). -/
def ExternalCall.agentOf : ExternalCall → String
  | .searchCall _ => ""
  | .modelCall n _ _ => n

/-- Oracles standing for the external generative-model service: what each
agent run returns for a given prompt (`Except` for an external failure such as
a schema-validation or network error), and which search queries the stage-3
agent asks its tool set to run. -/
structure StageOracles where
  visual : String → String → Except String WaterVisualAnalysisOutput
  riskMapper : String → Except String WaterContaminationDiagnosis
  researcherToolRequests : String → List String
  researcher : String → Except String String
  reportGen : String → Except String String

/-- Modelled from the spec: the enforcement of an agent's `tool_call_limit`
lives in the external agent framework, not in src; the spec's external
interface for the web-search call says it "must support a per-run invocation
cap".  Of the tool calls an agent's model requests, only the first
`tool_call_limit` many are executed (no cap when the keyword is absent). -/
def executedToolCalls (cfg : AgentConfig) (requests : List String) : List String :=
  requests.take (cfg.tool_call_limit.getD requests.length)

/-- The fixed user message of the stage-1 run (src line 188). -/
def visualPrompt : String := "Inspect this water image for contamination signs."

/-- Embeds `contamination_input_prompt` (src lines 212-221); the f-string keeps
the four-space indentation of its continuation lines. -/
def contamination_input_prompt (visual_insights_str : String) (i : UserWaterInputs) : String :=
  "💧 **Water Risk Mapping Input**\n\n    " ++ visual_insights_str
    ++ "\n\n    **Water Source**: " ++ optStr i.water_source_type
    ++ "\n    **Usage**: " ++ optStr i.water_usage
    ++ "\n    **Surrounding Area**: " ++ optStr i.surrounding_area
    ++ "\n    **User-Noticed Issues**: " ++ joinedIssues i.noticed_issues
    ++ "\n    **Urgency Level**: " ++ i.urgency_level
    ++ "\n    "

/-- Embeds `research_inputs` (src lines 251-264). -/
def research_inputs (water_diagnosis_str : String) (i : UserWaterInputs) : String :=
  "\n    📋 Water Contamination Summary:\n    " ++ water_diagnosis_str
    ++ "\n\n    Water Source Type: " ++ pyOrStr i.water_source_type "Not specified"
    ++ "\n\n    Based on this input, perform SerpAPI-based web searches across the following categories:\n    - DIY water purification\n    - Water safety and hygiene guidelines\n    - NGO or public advisories\n    - Water filter reviews or recommendations\n\n    Return 12-16 helpful and broadly useful links in markdown format.\n    "

/-- Embeds `report_prompt` (src lines 322-332). -/
def report_prompt (visual_insights_str water_diagnosis_str research_links : String) : String :=
  "\n    " ++ visual_insights_str
    ++ "\n\n    " ++ water_diagnosis_str
    ++ "\n\n    🔬 **Curated Web Resources**\n\n    " ++ research_links
    ++ "\n\n    Generate a markdown-formatted, personalized Water Safety report using the content and structure above.\n    "

/-- Embeds `generate_water_quality_report` (src lines 148-336): the four agent
runs in source order, each stage's rendered output interpolated into the next
prompt.  Returns the trace of external calls made together with the final
report, or the error of the first stage that failed (a raised exception
propagates, so later stages never run).  `main` only calls this once an image
is present, hence the `getD` on the image content. -/
def generate_water_quality_report (o : StageOracles) (i : UserWaterInputs) :
    List ExternalCall × Except String String :=
  let image := i.uploaded_image.getD ""
  let call1 := ExternalCall.modelCall visual_analyzer_agent.name visual_analyzer_agent.modelId visualPrompt
  match o.visual visualPrompt image with
  | .error e => ([call1], .error e)
  | .ok visual_insights =>
    let visual_insights_str := water_visual_output_to_string visual_insights
    let prompt2 := contamination_input_prompt visual_insights_str i
    let call2 := ExternalCall.modelCall water_risk_mapper_agent.name water_risk_mapper_agent.modelId prompt2
    match o.riskMapper prompt2 with
    | .error e => ([call1, call2], .error e)
    | .ok water_diagnosis =>
      let water_diagnosis_str := water_diagnosis_to_string water_diagnosis
      let prompt3 := research_inputs water_diagnosis_str i
      let call3 := ExternalCall.modelCall web_researcher_agent.name web_researcher_agent.modelId prompt3
      let searches := (executedToolCalls web_researcher_agent (o.researcherToolRequests prompt3)).map ExternalCall.searchCall
      match o.researcher prompt3 with
      | .error e => (call1 :: call2 :: call3 :: searches, .error e)
      | .ok research_links =>
        let prompt4 := report_prompt visual_insights_str water_diagnosis_str research_links
        let call4 := ExternalCall.modelCall water_report_generator_agent.name water_report_generator_agent.modelId prompt4
        match o.reportGen prompt4 with
        | .error e => (call1 :: call2 :: call3 :: searches ++ [call4], .error e)
        | .ok water_report => (call1 :: call2 :: call3 :: searches ++ [call4], .ok water_report)

/-- The `st.session_state` attributes the program uses: the two keys (set by
the sidebar only when a non-empty value was typed) and the stored report and
image. -/
structure SessionState where
  openai_api_key : Option String
  serp_api_key : Option String
  water_report : Option String
  water_image : Option String
deriving DecidableEq

/-- Error message of the first guard in `main` (src line 375). -/
def openai_key_error : String := "Please provide your OpenAI API key in the sidebar."

/-- Error message of the second guard in `main` (src line 377). -/
def serp_key_error : String := "Please provide your SerpAPI key in the sidebar."

/-- Error message of the third guard in `main` (src line 379). -/
def missing_image_error : String := "Please upload an image of the water sample before generating the report."

/-- What one click of the generate button produces: the blocking message shown
to the user (if any), the external calls made, and the session state after the
click. -/
structure ClickOutcome where
  errorMsg : Option String
  calls : List ExternalCall
  finalState : SessionState
deriving DecidableEq

/-- Embeds the button branch of `main` (src lines 373-385): the `if`/`elif`
chain checks the OpenAI key, then the SerpAPI key, then the uploaded image;
only when all pass is the pipeline run, and only on its success are
`water_report` and `water_image` assigned.  An exception raised by a stage
propagates out of the spinner block and is surfaced, leaving the state as it
was. -/
def handle_generate_click (o : StageOracles) (state : SessionState) (inputs : UserWaterInputs) :
    ClickOutcome :=
  if state.openai_api_key.isNone then
    { errorMsg := some openai_key_error, calls := [], finalState := state }
  else if state.serp_api_key.isNone then
    { errorMsg := some serp_key_error, calls := [], finalState := state }
  else if inputs.uploaded_image.isNone then
    { errorMsg := some missing_image_error, calls := [], finalState := state }
  else
    let r := generate_water_quality_report o inputs
    match r.2 with
    | .error e => { errorMsg := some e, calls := r.1, finalState := state }
    | .ok report =>
      { errorMsg := none, calls := r.1,
        finalState := { state with water_report := some report,
                                   water_image := inputs.uploaded_image } }

/-- The string `t` occurs contiguously inside `s`. -/
def ContainsSubstr (s t : String) : Prop := t.data <:+: s.data

instance (s t : String) : Decidable (ContainsSubstr s t) :=
  inferInstanceAs (Decidable (_ <:+: _))

/-- Executable substring test, agreeing with `ContainsSubstr` by definition. -/
def containsSubstrB (s t : String) : Bool := decide (t.data <:+: s.data)

/-- The prompt text of a trace entry (the search query for a tool call). -/
def ExternalCall.promptOf : ExternalCall → String
  | .modelCall _ _ p => p
  | .searchCall q => q

/-- The fixed markdown headers of the report template, in the order the
stage-4 agent's instruction list states them (src lines 286-311): the title,
the five section headers, and the four curated-resource subheadings. -/
def reportSectionHeaders : List String :=
  ["## 🚱 Water Quality Report",
   "### 🔍 Visual Contamination Summary",
   "### 🧪 Diagnosis & Risk Mapping",
   "### 💧 Suggested Purification Methods",
   "### 🚫 Do’s and Don’ts",
   "### 🔗 Curated Resources",
   "#### 🛠️ DIY Water Purification",
   "#### 📘 Water Safety & Hygiene Guidelines",
   "#### 🏥 NGO or Public Advisories",
   "#### 🧪 Water Filter Reviews & Recommendations"]

/-- Drops everything up to and including the first occurrence of `pat`;
`none` when `pat` does not occur. -/
def dropAfterMatch (pat : List Char) : List Char → Option (List Char)
  | [] => if pat.isEmpty then some [] else none
  | c :: cs =>
    if pat.isPrefixOf (c :: cs) then some ((c :: cs).drop pat.length)
    else dropAfterMatch pat cs

/-- Each listed header occurs in the text, in the listed order (each strictly
after the end of the previous one). -/
def headersInOrderB : List String → List Char → Bool
  | [], _ => true
  | h :: hs, cs =>
    match dropAfterMatch h.data cs with
    | none => false
    | some rest => headersInOrderB hs rest

/-- Modelled from the spec: the content of the stage-4 output is produced by
the external model, not by code in src; the spec says the Report Composer
"returns a single final markdown document following a fixed section template".
A report follows the template when all the fixed headers of the in-src
instruction list occur in it, in order. -/
def FollowsReportTemplate (r : String) : Prop :=
  headersInOrderB reportSectionHeaders r.data = true

/-- A concrete visual-analysis result used to instantiate theorems. -/
def sampleVisual : WaterVisualAnalysisOutput :=
  { detected_features := [], contamination_level := .Low, likely_risks := [] }

/-- A concrete diagnosis used to instantiate theorems. -/
def sampleDiagnosis : WaterContaminationDiagnosis :=
  { summary := "", severity := "", contamination_causes := [], action_note := "" }

/-- A concrete filled-in form: image uploaded, purification preference "Yes". -/
def sampleInputs : UserWaterInputs :=
  { uploaded_image := some "imgbytes",
    water_source_type := some "Tap",
    water_usage := some "Drinking",
    surrounding_area := some "Urban",
    noticed_issues := [],
    purification_possible := "Yes",
    urgency_level := "Routine check" }

/-- A report consisting of exactly the template headers, one per line. -/
def templateReport : String := String.intercalate "\n" reportSectionHeaders

/-- Concrete oracles: every stage succeeds, the researcher requests five
search queries, the composer returns `templateReport`. -/
def sampleOracles : StageOracles :=
  { visual := fun _ _ => .ok sampleVisual,
    riskMapper := fun _ => .ok sampleDiagnosis,
    researcherToolRequests := fun _ => ["q1", "q2", "q3", "q4", "q5"],
    researcher := fun _ => .ok "links",
    reportGen := fun _ => .ok templateReport }

/-- Concrete oracles whose first stage fails. -/
def failingOracles : StageOracles :=
  { sampleOracles with visual := fun _ _ => .error "boom" }

/-- A session state holding both credentials and no stored report. -/
def sampleState : SessionState :=
  { openai_api_key := some "key-a", serp_api_key := some "key-b",
    water_report := none, water_image := none }

/-- A session state in which neither credential was ever entered. -/
def noKeysState : SessionState :=
  { openai_api_key := none, serp_api_key := none,
    water_report := none, water_image := none }

/-- The sample form with the image removed. -/
def noImageInputs : UserWaterInputs := { sampleInputs with uploaded_image := none }

/-- The sequential-threading property of one successful run: the pipeline's
trace is exactly the four stage calls in source order (with the capped search
calls inside stage 3), and each stage's rendered output occurs verbatim inside
the next stage's prompt — the stage-4 prompt containing all three upstream
renderings. -/
def PipelineRunsSequentially (o : StageOracles) (i : UserWaterInputs)
    (v : WaterVisualAnalysisOutput) (d : WaterContaminationDiagnosis)
    (links report : String) : Prop :=
  generate_water_quality_report o i =
    (ExternalCall.modelCall visual_analyzer_agent.name visual_analyzer_agent.modelId visualPrompt
      :: ExternalCall.modelCall water_risk_mapper_agent.name water_risk_mapper_agent.modelId
           (contamination_input_prompt (water_visual_output_to_string v) i)
      :: ExternalCall.modelCall web_researcher_agent.name web_researcher_agent.modelId
           (research_inputs (water_diagnosis_to_string d) i)
      :: (executedToolCalls web_researcher_agent
            (o.researcherToolRequests (research_inputs (water_diagnosis_to_string d) i))).map
           ExternalCall.searchCall
      ++ [ExternalCall.modelCall water_report_generator_agent.name
            water_report_generator_agent.modelId
            (report_prompt (water_visual_output_to_string v) (water_diagnosis_to_string d) links)],
     Except.ok report)
  ∧ ContainsSubstr (contamination_input_prompt (water_visual_output_to_string v) i)
      (water_visual_output_to_string v)
  ∧ ContainsSubstr (research_inputs (water_diagnosis_to_string d) i)
      (water_diagnosis_to_string d)
  ∧ ContainsSubstr
      (report_prompt (water_visual_output_to_string v) (water_diagnosis_to_string d) links)
      (water_visual_output_to_string v)
  ∧ ContainsSubstr
      (report_prompt (water_visual_output_to_string v) (water_diagnosis_to_string d) links)
      (water_diagnosis_to_string d)
  ∧ ContainsSubstr
      (report_prompt (water_visual_output_to_string v) (water_diagnosis_to_string d) links)
      links

theorem containsSubstr_self (t : String) : ContainsSubstr t t :=
  ⟨[], [], by simp⟩

theorem containsSubstr_append_left (u s t : String) (h : ContainsSubstr s t) :
    ContainsSubstr (u ++ s) t := by
  obtain ⟨p, q, hpq⟩ := h
  exact ⟨u.data ++ p, q, by simp [String.data_append, ← hpq]⟩

theorem containsSubstr_append_right (s u t : String) (h : ContainsSubstr s t) :
    ContainsSubstr (s ++ u) t := by
  obtain ⟨p, q, hpq⟩ := h
  exact ⟨p, q ++ u.data, by simp [String.data_append, ← hpq]⟩

theorem prompts_ignore_purification (vs ds p : String) (i : UserWaterInputs) :
    contamination_input_prompt vs { i with purification_possible := p } =
      contamination_input_prompt vs i
    ∧ research_inputs ds { i with purification_possible := p } = research_inputs ds i := by
  cases i
  exact ⟨rfl, rfl⟩

theorem countP_take_le (p : α → Bool) (n : Nat) (l : List α) :
    (l.take n).countP p ≤ n :=
  le_trans (List.countP_le_length p) (le_trans (List.length_take n l).le (Nat.min_le_left n _))

theorem filter_modelCall_of_map_searchCall (l : List String) :
    (l.map ExternalCall.searchCall).filter ExternalCall.isModelCall = [] := by
  induction l with
  | nil => rfl
  | cons a l ih => simp [List.filter, ExternalCall.isSearchCall, ExternalCall.isModelCall, ih]

theorem pipeline_model_calls_nodup (o : StageOracles) (i : UserWaterInputs) :
    (((generate_water_quality_report o i).1.filter ExternalCall.isModelCall).map
      ExternalCall.agentOf).Nodup := by
  unfold generate_water_quality_report
  cases h1 : o.visual visualPrompt (i.uploaded_image.getD "") with
  | error e => simp [h1, ExternalCall.isModelCall, ExternalCall.agentOf]
  | ok v =>
    cases h2 : o.riskMapper (contamination_input_prompt (water_visual_output_to_string v) i) with
    | error e =>
      simp [h1, h2, ExternalCall.isModelCall, ExternalCall.agentOf, visual_analyzer_agent,
        water_risk_mapper_agent]
    | ok d =>
      cases h3 : o.researcher (research_inputs (water_diagnosis_to_string d) i) with
      | error e =>
        simp [h1, h2, h3, ExternalCall.isModelCall, ExternalCall.agentOf,
          filter_modelCall_of_map_searchCall, visual_analyzer_agent, water_risk_mapper_agent,
          web_researcher_agent]
      | ok links =>
        cases h4 : o.reportGen
            (report_prompt (water_visual_output_to_string v) (water_diagnosis_to_string d) links) with
        | error e =>
          simp [h1, h2, h3, h4, ExternalCall.isModelCall, ExternalCall.agentOf,
            filter_modelCall_of_map_searchCall, visual_analyzer_agent, water_risk_mapper_agent,
            web_researcher_agent, water_report_generator_agent]
        | ok report =>
          simp [h1, h2, h3, h4, ExternalCall.isModelCall, ExternalCall.agentOf,
            filter_modelCall_of_map_searchCall, visual_analyzer_agent, water_risk_mapper_agent,
            web_researcher_agent, water_report_generator_agent]

theorem contamination_prompt_contains_visual (vs : String) (i : UserWaterInputs) :
    ContainsSubstr (contamination_input_prompt vs i) vs := by
  unfold contamination_input_prompt
  repeat
    first
    | exact containsSubstr_append_left _ _ _ (containsSubstr_self _)
    | apply containsSubstr_append_right

theorem research_inputs_contains_diagnosis (ds : String) (i : UserWaterInputs) :
    ContainsSubstr (research_inputs ds i) ds := by
  unfold research_inputs
  repeat
    first
    | exact containsSubstr_append_left _ _ _ (containsSubstr_self _)
    | apply containsSubstr_append_right

theorem report_prompt_contains_visual (vs ds links : String) :
    ContainsSubstr (report_prompt vs ds links) vs := by
  unfold report_prompt
  repeat
    first
    | exact containsSubstr_append_left _ _ _ (containsSubstr_self _)
    | apply containsSubstr_append_right

theorem report_prompt_contains_diagnosis (vs ds links : String) :
    ContainsSubstr (report_prompt vs ds links) ds := by
  unfold report_prompt
  repeat
    first
    | exact containsSubstr_append_left _ _ _ (containsSubstr_self _)
    | apply containsSubstr_append_right

theorem report_prompt_contains_links (vs ds links : String) :
    ContainsSubstr (report_prompt vs ds links) links := by
  unfold report_prompt
  repeat
    first
    | exact containsSubstr_append_left _ _ _ (containsSubstr_self _)
    | apply containsSubstr_append_right

/-- C1: every run executes the four stages strictly sequentially, and each
stage's output is serialized to text and included in the next stage's input:
the stage-2 prompt contains the rendering of the stage-1 VisualFindings, the
stage-3 prompt contains the rendering of the stage-2 Diagnosis, and the
stage-4 prompt contains the stage-1 and stage-2 renderings and the stage-3
research links. -/
theorem C1_stages_sequential_and_threaded (o : StageOracles) (i : UserWaterInputs)
    (v : WaterVisualAnalysisOutput) (d : WaterContaminationDiagnosis) (links report : String)
    (h1 : o.visual visualPrompt (i.uploaded_image.getD "") = Except.ok v)
    (h2 : o.riskMapper (contamination_input_prompt (water_visual_output_to_string v) i) =
      Except.ok d)
    (h3 : o.researcher (research_inputs (water_diagnosis_to_string d) i) = Except.ok links)
    (h4 : o.reportGen
        (report_prompt (water_visual_output_to_string v) (water_diagnosis_to_string d) links) =
      Except.ok report) :
    PipelineRunsSequentially o i v d links report := by
  refine ⟨?_, contamination_prompt_contains_visual _ _, research_inputs_contains_diagnosis _ _,
    report_prompt_contains_visual _ _ _, report_prompt_contains_diagnosis _ _ _,
    report_prompt_contains_links _ _ _⟩
  unfold generate_water_quality_report
  simp [h1, h2, h3, h4]

/-- Witness for C1: a concrete all-successful run. -/
theorem C1_stages_sequential_and_threaded_witness :
    PipelineRunsSequentially sampleOracles sampleInputs sampleVisual sampleDiagnosis
      "links" templateReport :=
  C1_stages_sequential_and_threaded sampleOracles sampleInputs sampleVisual sampleDiagnosis
    "links" templateReport rfl rfl rfl rfl

/-- C2: with both keys present but no image uploaded, the click makes no
external call, reports the missing-input message, and leaves the state as is. -/
theorem C2_no_image_no_calls (o : StageOracles) (st : SessionState) (i : UserWaterInputs)
    (hok : st.openai_api_key.isSome = true) (hsk : st.serp_api_key.isSome = true)
    (himg : i.uploaded_image = none) :
    handle_generate_click o st i =
      { errorMsg := some missing_image_error, calls := [], finalState := st } := by
  cases hk : st.openai_api_key with
  | none => rw [hk] at hok; simp at hok
  | some a =>
    cases hs : st.serp_api_key with
    | none => rw [hs] at hsk; simp at hsk
    | some b => simp [handle_generate_click, hk, hs, himg]

/-- Witness for C2: both keys entered, no image. -/
theorem C2_no_image_no_calls_witness :
    handle_generate_click sampleOracles sampleState noImageInputs =
      { errorMsg := some missing_image_error, calls := [], finalState := sampleState } :=
  C2_no_image_no_calls sampleOracles sampleState noImageInputs rfl rfl rfl

/-- C3: when either service key is absent from session state, the click makes
no external call and reports a missing-credential message. -/
theorem C3_missing_credential_no_calls (o : StageOracles) (st : SessionState)
    (i : UserWaterInputs) (h : st.openai_api_key = none ∨ st.serp_api_key = none) :
    (handle_generate_click o st i).calls = []
    ∧ (handle_generate_click o st i).finalState = st
    ∧ ((handle_generate_click o st i).errorMsg = some openai_key_error
        ∨ (handle_generate_click o st i).errorMsg = some serp_key_error) := by
  cases hk : st.openai_api_key with
  | none => simp [handle_generate_click, hk]
  | some a =>
    rcases h with h | h
    · rw [hk] at h; cases h
    · simp [handle_generate_click, hk, h]

/-- Witness for C3: neither key entered. -/
theorem C3_missing_credential_no_calls_witness :
    (handle_generate_click sampleOracles noKeysState sampleInputs).calls = []
    ∧ (handle_generate_click sampleOracles noKeysState sampleInputs).finalState = noKeysState
    ∧ ((handle_generate_click sampleOracles noKeysState sampleInputs).errorMsg =
          some openai_key_error
        ∨ (handle_generate_click sampleOracles noKeysState sampleInputs).errorMsg =
          some serp_key_error) :=
  C3_missing_credential_no_calls sampleOracles noKeysState sampleInputs (Or.inl rfl)

/-- C4: the `contamination_level` of every stage-1 result renders as exactly
one of "Low", "Moderate" or "High". -/
theorem C4_contamination_level_closed_enum (o : WaterVisualAnalysisOutput) :
    o.contamination_level.render = "Low" ∨ o.contamination_level.render = "Moderate"
      ∨ o.contamination_level.render = "High" := by
  cases h : o.contamination_level <;> simp [ContaminationLevel.render]

/-- C5: if a stage fails, the click surfaces that error, no stage is retried
(the model-call agent names of the trace are pairwise distinct), and session
state is left unchanged, so no partial report artifact is produced. -/
theorem C5_stage_failure_aborts_without_artifact (o : StageOracles) (st : SessionState)
    (i : UserWaterInputs) (e : String)
    (hok : st.openai_api_key.isSome = true) (hsk : st.serp_api_key.isSome = true)
    (himg : i.uploaded_image.isSome = true)
    (hfail : (generate_water_quality_report o i).2 = Except.error e) :
    (handle_generate_click o st i).finalState = st
    ∧ (handle_generate_click o st i).errorMsg = some e
    ∧ (handle_generate_click o st i).finalState.water_report = st.water_report
    ∧ (((handle_generate_click o st i).calls.filter ExternalCall.isModelCall).map
        ExternalCall.agentOf).Nodup := by
  cases hk : st.openai_api_key with
  | none => rw [hk] at hok; simp at hok
  | some a =>
    cases hs : st.serp_api_key with
    | none => rw [hs] at hsk; simp at hsk
    | some b =>
      cases hi : i.uploaded_image with
      | none => rw [hi] at himg; simp at himg
      | some img =>
        have hnd := pipeline_model_calls_nodup o i
        simp [handle_generate_click, hk, hs, hi, hfail, hnd]

/-- Witness for C5: stage 1 fails on a concrete run. -/
theorem C5_stage_failure_aborts_without_artifact_witness :
    (handle_generate_click failingOracles sampleState sampleInputs).finalState = sampleState
    ∧ (handle_generate_click failingOracles sampleState sampleInputs).errorMsg = some "boom"
    ∧ (handle_generate_click failingOracles sampleState sampleInputs).finalState.water_report =
        sampleState.water_report
    ∧ (((handle_generate_click failingOracles sampleState sampleInputs).calls.filter
          ExternalCall.isModelCall).map ExternalCall.agentOf).Nodup :=
  C5_stage_failure_aborts_without_artifact failingOracles sampleState sampleInputs "boom"
    rfl rfl rfl rfl

set_option maxRecDepth 40000 in
/-- C6 counterexample: on a concrete successful run whose purification
preference is "Yes", no prompt or search query of the whole run — in
particular neither the stage-2 nor the stage-3 prompt — contains the string
"Yes": the `purification_possible` field is collected but consumed by no
stage. -/
theorem C6_counterexample_purification_unused :
    sampleInputs.purification_possible = "Yes"
    ∧ ((generate_water_quality_report sampleOracles sampleInputs).1.all
        (fun c => ! containsSubstrB c.promptOf "Yes")) = true :=
  ⟨rfl, by decide⟩

/-- C6 as amended: every field of the user context except
`purification_preference` appears in the stage-2 or stage-3 prompt (source
type, usage, surroundings, the joined noticed issues and the urgency in the
stage-2 prompt; the source type also in the stage-3 prompt), while the
purification preference influences neither prompt. -/
theorem C6_context_fields_consumed_except_purification (vs ds : String) (i : UserWaterInputs) :
    ContainsSubstr (contamination_input_prompt vs i) (optStr i.water_source_type)
    ∧ ContainsSubstr (contamination_input_prompt vs i) (optStr i.water_usage)
    ∧ ContainsSubstr (contamination_input_prompt vs i) (optStr i.surrounding_area)
    ∧ ContainsSubstr (contamination_input_prompt vs i) (joinedIssues i.noticed_issues)
    ∧ ContainsSubstr (contamination_input_prompt vs i) i.urgency_level
    ∧ ContainsSubstr (research_inputs ds i) (pyOrStr i.water_source_type "Not specified")
    ∧ (∀ p, contamination_input_prompt vs { i with purification_possible := p } =
          contamination_input_prompt vs i
        ∧ research_inputs ds { i with purification_possible := p } = research_inputs ds i) := by
  refine ⟨?_, ?_, ?_, ?_, ?_, ?_, fun p => prompts_ignore_purification vs ds p i⟩
  · unfold contamination_input_prompt
    repeat
      first
      | exact containsSubstr_append_left _ _ _ (containsSubstr_self _)
      | apply containsSubstr_append_right
  · unfold contamination_input_prompt
    repeat
      first
      | exact containsSubstr_append_left _ _ _ (containsSubstr_self _)
      | apply containsSubstr_append_right
  · unfold contamination_input_prompt
    repeat
      first
      | exact containsSubstr_append_left _ _ _ (containsSubstr_self _)
      | apply containsSubstr_append_right
  · unfold contamination_input_prompt
    repeat
      first
      | exact containsSubstr_append_left _ _ _ (containsSubstr_self _)
      | apply containsSubstr_append_right
  · unfold contamination_input_prompt
    repeat
      first
      | exact containsSubstr_append_left _ _ _ (containsSubstr_self _)
      | apply containsSubstr_append_right
  · unfold research_inputs
    repeat
      first
      | exact containsSubstr_append_left _ _ _ (containsSubstr_self _)
      | apply containsSubstr_append_right

/-- C7: the stage-3 agent is configured with a per-run tool-call cap of 4, and
in any run of the pipeline at most 4 web-search calls occur in the trace. -/
theorem C7_search_calls_capped_at_four (o : StageOracles) (i : UserWaterInputs) :
    web_researcher_agent.tool_call_limit = some 4
    ∧ (generate_water_quality_report o i).1.countP ExternalCall.isSearchCall ≤ 4 := by
  refine ⟨rfl, ?_⟩
  unfold generate_water_quality_report
  cases h1 : o.visual visualPrompt (i.uploaded_image.getD "") with
  | error e => simp [h1, ExternalCall.isSearchCall]
  | ok v =>
    cases h2 : o.riskMapper (contamination_input_prompt (water_visual_output_to_string v) i) with
    | error e => simp [h1, h2, ExternalCall.isSearchCall]
    | ok d =>
      cases h3 : o.researcher (research_inputs (water_diagnosis_to_string d) i) with
      | error e =>
        simp [h1, h2, h3, executedToolCalls, web_researcher_agent, List.countP_cons,
          List.countP_append, ExternalCall.isSearchCall, List.countP_map, Function.comp]
        exact countP_take_le _ _ _
      | ok links =>
        cases h4 : o.reportGen
            (report_prompt (water_visual_output_to_string v) (water_diagnosis_to_string d)
              links) with
        | error e =>
          simp [h1, h2, h3, h4, executedToolCalls, web_researcher_agent, List.countP_cons,
            List.countP_append, ExternalCall.isSearchCall, List.countP_map, Function.comp]
          exact countP_take_le _ _ _
        | ok report =>
          simp [h1, h2, h3, h4, executedToolCalls, web_researcher_agent, List.countP_cons,
            List.countP_append, ExternalCall.isSearchCall, List.countP_map, Function.comp]
          exact countP_take_le _ _ _

/-- C8: a successful run stores exactly one report in session state, and —
with the composer following its fixed template, as modelled from the spec —
that report contains the fixed section headers, in order. -/
theorem C8_single_report_with_template_headers (o : StageOracles) (st : SessionState)
    (i : UserWaterInputs) (report : String)
    (hok : st.openai_api_key.isSome = true) (hsk : st.serp_api_key.isSome = true)
    (himg : i.uploaded_image.isSome = true)
    (hrun : (generate_water_quality_report o i).2 = Except.ok report)
    (htmpl : FollowsReportTemplate report) :
    (handle_generate_click o st i).finalState.water_report = some report
    ∧ (handle_generate_click o st i).errorMsg = none
    ∧ headersInOrderB reportSectionHeaders report.data = true := by
  refine ⟨?_, ?_, htmpl⟩ <;>
    (cases hk : st.openai_api_key with
     | none => rw [hk] at hok; simp at hok
     | some a =>
       cases hs : st.serp_api_key with
       | none => rw [hs] at hsk; simp at hsk
       | some b =>
         cases hi : i.uploaded_image with
         | none => rw [hi] at himg; simp at himg
         | some img => simp [handle_generate_click, hk, hs, hi, hrun])

set_option maxRecDepth 40000 in
/-- Witness for C8: a concrete run whose composer returns the template
headers. -/
theorem C8_single_report_with_template_headers_witness :
    (handle_generate_click sampleOracles sampleState sampleInputs).finalState.water_report =
        some templateReport
    ∧ (handle_generate_click sampleOracles sampleState sampleInputs).errorMsg = none
    ∧ headersInOrderB reportSectionHeaders templateReport.data = true :=
  C8_single_report_with_template_headers sampleOracles sampleState sampleInputs templateReport
    rfl rfl rfl rfl (by unfold FollowsReportTemplate; decide)

/-- C9: stages 1, 2 and 3 are all built on the same model id and stage 4 on a
different one, so the pipeline uses exactly two model variants. -/
theorem C9_exactly_two_model_variants :
    visual_analyzer_agent.modelId = water_risk_mapper_agent.modelId
    ∧ water_risk_mapper_agent.modelId = web_researcher_agent.modelId
    ∧ water_report_generator_agent.modelId ≠ visual_analyzer_agent.modelId
    ∧ [visual_analyzer_agent.modelId, water_risk_mapper_agent.modelId,
        web_researcher_agent.modelId, water_report_generator_agent.modelId].dedup.length = 2 := by
  decide

/-- C10: when any guard fails the click reports exactly one blocking error,
chosen by checking the OpenAI key first, then the SerpAPI key, then the image;
in particular a missing credential wins over a missing image. -/
theorem C10_guard_order_single_error (o : StageOracles) (st : SessionState)
    (i : UserWaterInputs)
    (hblock : st.openai_api_key = none ∨ st.serp_api_key = none ∨ i.uploaded_image = none) :
    handle_generate_click o st i =
      { errorMsg := some (if st.openai_api_key.isNone then openai_key_error
                          else if st.serp_api_key.isNone then serp_key_error
                          else missing_image_error),
        calls := [], finalState := st } := by
  cases hk : st.openai_api_key with
  | none => simp [handle_generate_click, hk]
  | some a =>
    cases hs : st.serp_api_key with
    | none => simp [handle_generate_click, hk, hs]
    | some b =>
      cases hi : i.uploaded_image with
      | none => simp [handle_generate_click, hk, hs, hi]
      | some img =>
        exfalso
        rcases hblock with h | h | h
        · rw [hk] at h; cases h
        · rw [hs] at h; cases h
        · rw [hi] at h; cases h

/-- Witness for C10: both credentials and the image missing; the reported
error is the OpenAI-credential one. -/
theorem C10_guard_order_single_error_witness :
    handle_generate_click sampleOracles noKeysState noImageInputs =
      { errorMsg := some (if noKeysState.openai_api_key.isNone then openai_key_error
                          else if noKeysState.serp_api_key.isNone then serp_key_error
                          else missing_image_error),
        calls := [], finalState := noKeysState } :=
  C10_guard_order_single_error sampleOracles noKeysState noImageInputs (Or.inl rfl)
